import Mathlib

/-
  Verification of the dogma agent framework (dogma/__init__.py, dogma/program.py).

  The embedding models the framework's own code: the Agent class, the
  Program / PlugableProgram / Plugin base classes, and the registry dictionaries
  (`Agent.programs`, `PlugableProgram.plugins`) that hold loaded children.
  Python dictionaries are modelled as insertion-ordered association lists;
  Python exceptions are modelled by an explicit error type threaded alongside
  the mutated state (an exception propagates, but mutations performed before
  the raise remain visible to the caller, exactly as in Python).

  User subclasses of Program / Plugin are an open world: the framework calls
  their load/unload/init overrides.  They are modelled by a small amount of
  class data (ProgCls / PluginCls): `loadFails` says whether the subclass's
  `load` raises, `unloadRet` is the state value the subclass's `unload`
  returns when the framework calls `plugin.unload({})`.  The plain base
  classes correspond to `loadFails = false` and `unloadRet = {}`.
-/

set_option autoImplicit false

namespace Dogma

/-- Python-like opaque values used for the state dictionaries threaded through
load/unload.  `pyDict` keeps its key/value pairs in insertion order, matching
Python dict semantics. -/
inductive PyVal : Type where
  | pyNone : PyVal
  | pyStr : String → PyVal
  | pyDict : List (String × PyVal) → PyVal

/-- First-match association-list lookup; models `d[k]` / `k in d` on a Python
dict (whose keys are unique, so first-match is exact). -/
def lookupKey {α : Type} : List (String × α) → String → Option α
  | [], _ => none
  | (k', v) :: rest, k => if k' = k then some v else lookupKey rest k

/-- Python `d[k] = v`: replaces the value in place if `k` is present (keeping
its position), otherwise appends the new binding at the end. -/
def setKey {α : Type} : List (String × α) → String → α → List (String × α)
  | [], k, v => [(k, v)]
  | (k', v') :: rest, k, v =>
      if k' = k then (k, v) :: rest else (k', v') :: setKey rest k v

/-- Python `del d[k]` (a dict holds a key at most once, so removing every
occurrence agrees with deleting the unique one). -/
def removeKey {α : Type} : List (String × α) → String → List (String × α)
  | [], _ => []
  | (k', v') :: rest, k =>
      if k' = k then removeKey rest k else (k', v') :: removeKey rest k

/-- Python truthiness for the modelled values: None, empty string and the
empty dict are falsy. -/
def pyFalsy : PyVal → Bool
  | .pyNone => true
  | .pyStr s => s.isEmpty
  | .pyDict l => l.isEmpty

/-- Python `state or {}` as used by `plugin.load(config=config, state=state or {})`
and `program.load(config=config, state=state or {})`. -/
def pyOrEmpty (v : PyVal) : PyVal := if pyFalsy v then .pyDict [] else v

/-- `d.get(k)` on a modelled dict. -/
def dictGet : PyVal → String → Option PyVal
  | .pyDict l, k => lookupKey l k
  | _, _ => none

/-- `d.get(k, default)`. -/
def dictGetD (v : PyVal) (k : String) (d : PyVal) : PyVal :=
  match dictGet v k with
  | some w => w
  | none => d

/-- `d[k] = v` on a modelled dict (non-dicts are left unchanged; the framework
only ever writes into dicts). -/
def dictSet (v : PyVal) (k : String) (w : PyVal) : PyVal :=
  match v with
  | .pyDict l => .pyDict (setKey l k w)
  | other => other

/-- View a modelled value as a dict's entry list (the framework indexes
`state['plugins'][name]` only after setting `state['plugins']` to a dict). -/
def asDictList : PyVal → List (String × PyVal)
  | .pyDict l => l
  | _ => []

/-- Errors.  `programLoadError` is dogma.program.ProgramLoadError;
`importError` and `attributeError` are the bare Python exceptions raised by
`importlib.import_module` on a missing module and by attribute access on an
object lacking the attribute; `userError` stands for an arbitrary exception
raised by a user subclass's `load` override (tagged by the class identity). -/
inductive PyErr : Type where
  | programLoadError : String → PyErr
  | importError : String → PyErr
  | attributeError : String → PyErr
  | userError : Nat → PyErr

/-- Opaque config object handed to a Plugin.  `pnone` is Python None (the
default); `ptag` is any other opaque config, distinguished by a tag. -/
inductive PCfg : Type where
  | pnone : PCfg
  | ptag : Nat → PCfg

/-- One entry of the `plugins` keyword-argument list consumed by
`PlugableProgram.plugin_import_list` (the `**kwargs` of plugin_import, with
Python defaults already filled in: classname defaults to "Plugin", unique_id
and config default to None). -/
structure PlugSpec : Type where
  module : String
  unique_id : Option String
  classname : String
  config : PCfg

/-- Opaque config object of a Program.  `cnone` is Python None; `cmk plugins tag`
is a dict-like config whose `.get("plugins")` yields `plugins` (None when the
key is absent), with `tag` distinguishing otherwise-equal configs. -/
inductive ConfigV : Type where
  | cnone : ConfigV
  | cmk : Option (List PlugSpec) → Nat → ConfigV

/-- A Plugin subclass (user code).  `clsId` is the identity of the class
object (`==` on classes); id 0 is reserved for the abstract base
dogma.program.Plugin itself.  `properSubclassOfPlugin` records whether the
class is a proper subclass of that base — note the source never consults this.
`loadFails` models a `load` override that raises; `unloadRet` is what the
class's `unload({})` returns (the base class returns `{}`). -/
structure PluginCls : Type where
  clsId : Nat
  properSubclassOfPlugin : Bool
  loadFails : Bool
  unloadRet : PyVal

/-- `attr == dogma.program.Plugin` (class object identity). -/
def isPluginBaseCls (c : PluginCls) : Bool := c.clsId = 0

/-- A live Plugin instance: `Plugin.__init__` leaves `unique_id = None` and
`config = None` (class attributes) until the framework assigns them. -/
structure PluginInst : Type where
  cls : PluginCls
  unique_id : Option String
  config : PCfg

/-- A Program/PlugableProgram subclass (user code); same conventions as
`PluginCls`, clsId 0 reserved for the abstract base dogma.program.Program. -/
structure ProgCls : Type where
  clsId : Nat
  properSubclassOfProgram : Bool
  loadFails : Bool

/-- `attr == dogma.program.Program` (class object identity). -/
def isProgramBaseCls (c : ProgCls) : Bool := c.clsId = 0

/-- A live PlugableProgram instance.  `green` is the gevent greenlet handle:
`none` before `init` spawns it, `some false` while alive, `some true` once
dead (killed).  `plugins` is the instance's plugin registry dict. -/
structure ProgInst : Type where
  cls : ProgCls
  unique_id : Option String
  config : ConfigV
  green : Option Bool
  plugins : List (String × PluginInst)

/-- The id string of a program for event labelling (`unique_id` is assigned
before any lifecycle call the claims are about). -/
def uidStr (p : ProgInst) : String := p.unique_id.getD ""

/-- The Agent: its registry dict `programs` of loaded Program instances. -/
structure AgentSt : Type where
  programs : List (String × ProgInst)

/-- Observable events emitted by the lifecycle operations, in program order:
plugin loads/unloads/inits, greenlet spawn/kill/joinall, module reloads. -/
inductive Ev : Type where
  | pluginLoadEv : String → String → PCfg → PyVal → Ev
  | pluginUnloadEv : String → String → Ev
  | pluginInitEv : String → String → Ev
  | progLoadEv : String → ConfigV → PyVal → Ev
  | spawnEv : String → Ev
  | killGreenEv : String → Ev
  | joinAllEv : List String → Ev
  | reloadModuleEv : Nat → Ev

/-- What `getattr(mod, classname)` can resolve to: a falsy attribute, a truthy
non-class attribute, or a class. -/
inductive AttrRes (α : Type) : Type where
  | falsy : AttrRes α
  | notAClass : AttrRes α
  | cls : α → AttrRes α

/-- The importable module universe: module name → (attribute name → attribute).
A missing module makes `importlib.import_module` raise ImportError; a missing
attribute makes `getattr` raise AttributeError. -/
def ModSys (α : Type) : Type := List (String × List (String × AttrRes α))

/-! ### Plugin-level operations (dogma/program.py, class PlugableProgram) -/

/-- `PlugableProgram.plugin_load(plugin, unique_id, config=None, state=None)`:
duplicate-id check, construct the instance (`plugin(self)`), assign
`plugin.unique_id`, insert into `self.plugins`, and only then call
`plugin.load(config=config, state=state or {})`.  On a raising load the
exception propagates while the instance stays in the registry dict. -/
def PlugableProgram_plugin_load (p : ProgInst) (cls : PluginCls) (uid : String)
    (cfg : PCfg) (st : PyVal) : ProgInst × List Ev × Except PyErr PluginInst :=
  if (lookupKey p.plugins uid).isSome then
    (p, [], .error (.programLoadError ("Plugin already loaded: " ++ uid)))
  else
    let inst0 : PluginInst := ⟨cls, some uid, PCfg.pnone⟩
    let stArg := pyOrEmpty st
    if cls.loadFails then
      ({p with plugins := p.plugins ++ [(uid, inst0)]},
       [Ev.pluginLoadEv (uidStr p) uid cfg stArg],
       .error (.userError cls.clsId))
    else
      let inst1 : PluginInst := { inst0 with config := cfg }
      ({p with plugins := p.plugins ++ [(uid, inst1)]},
       [Ev.pluginLoadEv (uidStr p) uid cfg stArg],
       .ok inst1)

/-- `PlugableProgram.plugin_unload(unique_id)`: NotFound check, call
`plugin.unload({})`, delete from `self.plugins`, return the state. -/
def PlugableProgram_plugin_unload (p : ProgInst) (uid : String) :
    ProgInst × List Ev × Except PyErr PyVal :=
  match lookupKey p.plugins uid with
  | none => (p, [], .error (.programLoadError ("Cannot remove non-loaded plugin: " ++ uid)))
  | some pl =>
      ({p with plugins := removeKey p.plugins uid},
       [Ev.pluginUnloadEv (uidStr p) uid],
       .ok pl.cls.unloadRet)

/-- `PlugableProgram.plugin_import(module, unique_id=None, classname="Plugin",
config=None)`: `unique_id or module`, import the module, `getattr`, the three
explicit checks (falsy, not a class, is the Plugin base itself), then
`plugin_load(plugin, unique_id, config=config)` with state defaulted to None.
The source performs no subclass check: any class other than the base passes. -/
def PlugableProgram_plugin_import (qm : ModSys PluginCls) (p : ProgInst)
    (module : String) (uidOpt : Option String) (classname : String) (cfg : PCfg) :
    ProgInst × List Ev × Except PyErr PluginInst :=
  let uid :=
    match uidOpt with
    | none => module
    | some s => if s = "" then module else s
  match lookupKey qm module with
  | none => (p, [], .error (.importError module))
  | some m =>
    match lookupKey m classname with
    | none => (p, [], .error (.attributeError classname))
    | some AttrRes.falsy =>
        (p, [], .error (.programLoadError
          ("Class " ++ classname ++ " for module " ++ module ++ " not defined")))
    | some AttrRes.notAClass =>
        (p, [], .error (.programLoadError
          ("Attribute " ++ classname ++ " for module " ++ module ++ " is not a class")))
    | some (AttrRes.cls c) =>
        if isPluginBaseCls c then
          (p, [], .error (.programLoadError
            ("Class " ++ classname ++ " for module " ++ module
              ++ " can not be dogma.program.Plugin")))
        else
          PlugableProgram_plugin_load p c uid cfg PyVal.pyNone

/-- The loop body of `plugin_import_list`: `for kwargs in plugins:
self.plugin_import(**kwargs)`.  The first raising import aborts the remaining
iterations and propagates; earlier successful loads remain in `self.plugins`. -/
def importListGo (qm : ModSys PluginCls) (p : ProgInst) :
    List PlugSpec → ProgInst × List Ev × Option PyErr
  | [] => (p, [], none)
  | s :: rest =>
    match PlugableProgram_plugin_import qm p s.module s.unique_id s.classname s.config with
    | (p', evs, .ok _) =>
        let r := importListGo qm p' rest
        (r.1, evs ++ r.2.1, r.2.2)
    | (p', evs, .error e) => (p', evs, some e)

/-- `PlugableProgram.plugin_import_list(plugins)`: `if not plugins: return`
(None and the empty list are both falsy and both do nothing), otherwise run
the loop over the specs. -/
def PlugableProgram_plugin_import_list (qm : ModSys PluginCls) (p : ProgInst)
    (specs : Option (List PlugSpec)) : ProgInst × List Ev × Option PyErr :=
  match specs with
  | none => (p, [], none)
  | some l => importListGo qm p l

/-- `PlugableProgram.load(config, state)` = `super().load(config, state)` =
`Program.load`, which stores `self.config = config` and nothing else (in
particular it loads no plugins, whatever the config declares).  A user
subclass override that raises is modelled by `loadFails`. -/
def PlugableProgram_load (p : ProgInst) (cfg : ConfigV) (st : PyVal) :
    ProgInst × List Ev × Option PyErr :=
  if p.cls.loadFails then
    (p, [Ev.progLoadEv (uidStr p) cfg st], some (.userError p.cls.clsId))
  else
    ({p with config := cfg}, [Ev.progLoadEv (uidStr p) cfg st], none)

/-- `PlugableProgram.unload(state=None)`: default the state to `{}`, set
`state['plugins'] = state.get('plugins', {})`, then for each loaded plugin (in
dict insertion order) `state['plugins'][name] = plugin.unload({})`; finally
`if self.green and not self.green.dead: self.green.kill()`; return the state.
The plugin registry dict itself is not cleared. -/
def PlugableProgram_unload (p : ProgInst) (stArg : PyVal) :
    ProgInst × PyVal × List Ev :=
  let st0 := match stArg with | PyVal.pyNone => PyVal.pyDict [] | v => v
  let st1 := dictSet st0 "plugins" (dictGetD st0 "plugins" (PyVal.pyDict []))
  let inner0 := asDictList (dictGetD st0 "plugins" (PyVal.pyDict []))
  let innerFinal :=
    p.plugins.foldl (fun acc q => setKey acc q.1 q.2.cls.unloadRet) inner0
  let stFinal := dictSet st1 "plugins" (PyVal.pyDict innerFinal)
  let evs1 := p.plugins.map (fun q => Ev.pluginUnloadEv (uidStr p) q.1)
  match p.green with
  | some false => ({p with green := some true}, stFinal, evs1 ++ [Ev.killGreenEv (uidStr p)])
  | g => ({p with green := g}, stFinal, evs1)

/-- `PlugableProgram.init()`: `for plugin in self.plugins.values(): plugin.init()`
(the base `Plugin.init` is a pass), then `super().init()` which spawns the run
greenlet (`self.green = gevent.spawn(self.run)`). -/
def PlugableProgram_init (p : ProgInst) : ProgInst × List Ev :=
  let evs := p.plugins.map (fun q => Ev.pluginInitEv (uidStr p) q.1)
  ({p with green := some false}, evs ++ [Ev.spawnEv (uidStr p)])

/-- `PlugableProgram.plugin_reload(unique_id, config=None)`: NotFound check,
reuse the old plugin's config when the argument is None, `plugin_unload` (the
old instance's own unload supplies the state), `reload_module` on the plugin's
module, `plugin_load(plugin.__class__, unique_id, config=config, state=state)`
with the same id, finally `plugin.init()` on the new instance. -/
def PlugableProgram_plugin_reload (p : ProgInst) (uid : String) (cfgArg : PCfg) :
    ProgInst × List Ev × Except PyErr PluginInst :=
  match lookupKey p.plugins uid with
  | none => (p, [], .error (.programLoadError ("Cannot reload non-loaded plugin: " ++ uid)))
  | some pl =>
    let cfg := match cfgArg with | PCfg.pnone => pl.config | c => c
    match PlugableProgram_plugin_unload p uid with
    | (p1, evs1, .error e) => (p1, evs1, .error e)
    | (p1, evs1, .ok st) =>
      let evs2 := [Ev.reloadModuleEv pl.cls.clsId]
      match PlugableProgram_plugin_load p1 pl.cls uid cfg st with
      | (p2, evs3, .error e) => (p2, evs1 ++ evs2 ++ evs3, .error e)
      | (p2, evs3, .ok newpl) =>
          (p2, evs1 ++ evs2 ++ evs3 ++ [Ev.pluginInitEv (uidStr p2) uid], .ok newpl)

/-- The loop of `PlugableProgram.propogate`: `for plugin in self.plugins:`
iterates over the dict's KEYS, so the loop body calls `.propogate` on a `str`,
which raises AttributeError on the very first iteration of a non-empty
registry. -/
def progPropogateGo : List String → Option PyErr
  | [] => none
  | _k :: _ => some (.attributeError "propogate")

/-- `PlugableProgram.propogate(command, data)` (source iterates dict keys). -/
def PlugableProgram_propogate (p : ProgInst) (_command : String) (_data : PyVal) :
    Option PyErr :=
  progPropogateGo (p.plugins.map Prod.fst)

/-- `Plugin.propogate(command, data)`: the base class does nothing. -/
def Plugin_propogate (_pl : PluginInst) (_command : String) (_data : PyVal) :
    Option PyErr :=
  none

/-! ### Agent-level operations (dogma/__init__.py, class Agent) -/

/-- `Agent.program_load(program, unique_id, config=None, state=None, plugins=None)`:
duplicate-id check, construct the instance (`program(self)`), assign
`program.unique_id`, insert into `self.programs`, call
`program.load(config=config, state=state or {})`, and finally — since every
modelled program is a PlugableProgram and hence has `plugin_import_list` —
`program.plugin_import_list(plugins)`.  Mutations made to the shared instance
by `load` / `plugin_import_list` are visible through the registry entry; a
raising load or plugin import propagates while the entry stays registered. -/
def Agent_program_load (qm : ModSys PluginCls) (a : AgentSt) (cls : ProgCls)
    (uid : String) (cfg : ConfigV) (st : PyVal) (plugins : Option (List PlugSpec)) :
    AgentSt × List Ev × Except PyErr ProgInst :=
  if (lookupKey a.programs uid).isSome then
    (a, [], .error (.programLoadError ("Program already loaded: " ++ uid)))
  else
    let inst0 : ProgInst := ⟨cls, some uid, ConfigV.cnone, none, []⟩
    let a1 : AgentSt := ⟨a.programs ++ [(uid, inst0)]⟩
    match PlugableProgram_load inst0 cfg (pyOrEmpty st) with
    | (inst1, evs1, some e) => (⟨setKey a1.programs uid inst1⟩, evs1, .error e)
    | (inst1, evs1, none) =>
      let a2 : AgentSt := ⟨setKey a1.programs uid inst1⟩
      match PlugableProgram_plugin_import_list qm inst1 plugins with
      | (inst2, evs2, some e) => (⟨setKey a2.programs uid inst2⟩, evs1 ++ evs2, .error e)
      | (inst2, evs2, none) => (⟨setKey a2.programs uid inst2⟩, evs1 ++ evs2, .ok inst2)

/-- `Agent.program_import(module, unique_id=None, classname="Program",
config=None, plugins=None)`: `unique_id or module`, import the module,
`getattr`, the three explicit checks (falsy, not a class, is the Program base
itself), then `program_load(program, unique_id, config=config, plugins=plugins)`
with state defaulted to None.  The source performs no subclass check: any
class other than the base passes. -/
def Agent_program_import (pm : ModSys ProgCls) (qm : ModSys PluginCls)
    (a : AgentSt) (module : String) (uidOpt : Option String) (classname : String)
    (cfg : ConfigV) (plugins : Option (List PlugSpec)) :
    AgentSt × List Ev × Except PyErr ProgInst :=
  let uid :=
    match uidOpt with
    | none => module
    | some s => if s = "" then module else s
  match lookupKey pm module with
  | none => (a, [], .error (.importError module))
  | some m =>
    match lookupKey m classname with
    | none => (a, [], .error (.attributeError classname))
    | some AttrRes.falsy =>
        (a, [], .error (.programLoadError
          ("Class " ++ classname ++ " for module " ++ module ++ " not defined")))
    | some AttrRes.notAClass =>
        (a, [], .error (.programLoadError
          ("Attribute " ++ classname ++ " for module " ++ module ++ " is not a class")))
    | some (AttrRes.cls c) =>
        if isProgramBaseCls c then
          (a, [], .error (.programLoadError
            ("Class " ++ classname ++ " for module " ++ module
              ++ " can not be dogma.program.Program")))
        else
          Agent_program_load qm a c uid cfg PyVal.pyNone plugins

/-- `Agent.program_unload(unique_id)`: NotFound check (the `unique_id is None`
guard of the source is subsumed by the not-in-registry check for the string
ids modelled here), call `self.programs[unique_id].unload({})`, delete the
entry, return the state. -/
def Agent_program_unload (a : AgentSt) (uid : String) :
    AgentSt × List Ev × Except PyErr PyVal :=
  match lookupKey a.programs uid with
  | none => (a, [], .error (.programLoadError ("Cannot remove non-loaded program: " ++ uid)))
  | some p =>
    let u := PlugableProgram_unload p (PyVal.pyDict [])
    (⟨removeKey a.programs uid⟩, u.2.2, .ok u.2.1)

/-- `Agent.program_reload(unique_id, config=None)`: NotFound check, reuse the
old program's config when the argument is None, `program_unload` (the old
instance's own unload supplies the state), `reload_module` on the program's
module, then `program_load(program.__class__, unique_id, config=config,
state=state, plugins=config.get("plugins"))` — evaluating `config.get` raises
AttributeError when the config is None, after the unload already removed the
id — and finally `program.init()` on the new instance (which mutates the
registered instance's greenlet handle). -/
def Agent_program_reload (qm : ModSys PluginCls) (a : AgentSt) (uid : String)
    (cfgArg : ConfigV) : AgentSt × List Ev × Except PyErr ProgInst :=
  match lookupKey a.programs uid with
  | none => (a, [], .error (.programLoadError ("Cannot reload non-loaded program: " ++ uid)))
  | some p =>
    let cfg := match cfgArg with | ConfigV.cnone => p.config | c => c
    match Agent_program_unload a uid with
    | (a1, evs1, .error e) => (a1, evs1, .error e)
    | (a1, evs1, .ok st) =>
      let evs2 := [Ev.reloadModuleEv p.cls.clsId]
      match cfg with
      | ConfigV.cnone => (a1, evs1 ++ evs2, .error (.attributeError "get"))
      | ConfigV.cmk pl _ =>
        match Agent_program_load qm a1 p.cls uid cfg st pl with
        | (a2, evs3, .error e) => (a2, evs1 ++ evs2 ++ evs3, .error e)
        | (a2, evs3, .ok newp) =>
          let pr := PlugableProgram_init newp
          (⟨setKey a2.programs uid pr.1⟩,
           evs1 ++ evs2 ++ evs3 ++ pr.2, .ok pr.1)

/-- The loop of `Agent.init`: initialize each program in registry order,
writing the mutated instances back. -/
def initGo : List (String × ProgInst) → List (String × ProgInst) × List Ev
  | [] => ([], [])
  | (k, p) :: rest =>
    let pr := PlugableProgram_init p
    let r := initGo rest
    ((k, pr.1) :: r.1, pr.2 ++ r.2)

/-- `Agent.init()`: `for program in self.programs.values(): program.init()`,
then `gevent.joinall([x.green for x in self.programs.values()])` — the join
blocks on exactly the greenlets of the registered programs (every spawned Task
of the tree, since plugins never own one), and returns immediately when the
registry is empty. -/
def Agent_init (a : AgentSt) : AgentSt × List Ev :=
  let r := initGo a.programs
  (⟨r.1⟩, r.2 ++ [Ev.joinAllEv (r.1.map Prod.fst)])

/-- The loop of `Agent.shutdown`: iterate over a snapshot of the registry's
keys (`[x for x in self.programs.keys()]`), unloading each; an unload failure
would propagate. -/
def shutdownGo : List String → AgentSt → AgentSt × List Ev × Option PyErr
  | [], a => (a, [], none)
  | k :: rest, a =>
    match Agent_program_unload a k with
    | (a', evs, .ok _) =>
        let r := shutdownGo rest a'
        (r.1, evs ++ r.2.1, r.2.2)
    | (a', evs, .error e) => (a', evs, some e)

/-- `Agent.shutdown()`: unload every program of the key snapshot. -/
def Agent_shutdown (a : AgentSt) : AgentSt × List Ev × Option PyErr :=
  shutdownGo (a.programs.map Prod.fst) a

/-- The loop of `Agent.propogate`: `for program in self.programs:` iterates
over the dict's KEYS, so the loop body calls `.propogate` on a `str`, which
raises AttributeError on the very first iteration of a non-empty registry. -/
def agentPropogateGo : List String → Option PyErr
  | [] => none
  | _k :: _ => some (.attributeError "propogate")

/-- `Agent.propogate(command, data)` (source iterates dict keys). -/
def Agent_propogate (a : AgentSt) (_command : String) (_data : PyVal) :
    Option PyErr :=
  agentPropogateGo (a.programs.map Prod.fst)

/-! ### Association-list lemmas for the registries -/

theorem lookupKey_eq_none {α : Type} {l : List (String × α)} {k : String}
    (h : k ∉ l.map Prod.fst) : lookupKey l k = none := by
  induction l with
  | nil => rfl
  | cons q rest ih =>
    obtain ⟨k', v⟩ := q
    simp only [List.map_cons, List.mem_cons, not_or] at h
    simp only [lookupKey, if_neg (fun hk : k' = k => h.1 hk.symm)]
    exact ih h.2

theorem removeKey_eq_self {α : Type} {l : List (String × α)} {k : String}
    (h : k ∉ l.map Prod.fst) : removeKey l k = l := by
  induction l with
  | nil => rfl
  | cons q rest ih =>
    obtain ⟨k', v⟩ := q
    simp only [List.map_cons, List.mem_cons, not_or] at h
    simp only [removeKey, if_neg (fun hk : k' = k => h.1 hk.symm)]
    rw [ih h.2]

theorem lookupKey_removeKey {α : Type} (l : List (String × α)) (k : String) :
    lookupKey (removeKey l k) k = none := by
  induction l with
  | nil => rfl
  | cons q rest ih =>
    obtain ⟨k', v⟩ := q
    by_cases hk : k' = k
    · simp only [removeKey, if_pos hk]
      exact ih
    · simp only [removeKey, if_neg hk, lookupKey]
      exact ih

theorem lookupKey_append_ne {α : Type} {l : List (String × α)} {k k' : String}
    (v : α) (hne : k' ≠ k) (h : lookupKey l k' = none) :
    lookupKey (l ++ [(k, v)]) k' = none := by
  induction l with
  | nil =>
    simp only [List.nil_append, lookupKey]
    rw [if_neg (fun hk : k = k' => hne hk.symm)]
  | cons q rest ih =>
    obtain ⟨k'', w⟩ := q
    simp only [lookupKey] at h
    by_cases hk : k'' = k'
    · rw [if_pos hk] at h
      cases h
    · simp only [List.cons_append, lookupKey, if_neg hk]
      rw [if_neg hk] at h
      exact ih h

theorem lookupKey_append_self {α : Type} {l : List (String × α)} {k : String}
    (v : α) (h : lookupKey l k = none) :
    lookupKey (l ++ [(k, v)]) k = some v := by
  induction l with
  | nil => simp [lookupKey]
  | cons q rest ih =>
    obtain ⟨k', w⟩ := q
    simp only [lookupKey] at h
    by_cases hk : k' = k
    · rw [if_pos hk] at h
      cases h
    · simp only [List.cons_append, lookupKey, if_neg hk]
      rw [if_neg hk] at h
      exact ih h

theorem setKey_eq_append {α : Type} {l : List (String × α)} {k : String}
    (v : α) (h : lookupKey l k = none) : setKey l k v = l ++ [(k, v)] := by
  induction l with
  | nil => rfl
  | cons q rest ih =>
    obtain ⟨k', w⟩ := q
    simp only [lookupKey] at h
    by_cases hk : k' = k
    · rw [if_pos hk] at h
      cases h
    · simp only [setKey, if_neg hk, List.cons_append]
      rw [ih]
      rw [if_neg hk] at h
      exact h

theorem setKey_append_self {α : Type} {l : List (String × α)} {k : String}
    (x y : α) (h : lookupKey l k = none) :
    setKey (l ++ [(k, x)]) k y = l ++ [(k, y)] := by
  induction l with
  | nil => simp [setKey]
  | cons q rest ih =>
    obtain ⟨k', w⟩ := q
    simp only [lookupKey] at h
    by_cases hk : k' = k
    · rw [if_pos hk] at h
      cases h
    · simp only [List.cons_append, setKey, if_neg hk, List.append_eq]
      rw [if_neg hk] at h
      rw [ih h]

theorem foldl_setKey_eq_map {β : Type} (g : String × β → PyVal) :
    ∀ (l : List (String × β)) (acc : List (String × PyVal)),
      (l.map Prod.fst).Nodup → (∀ q ∈ l, lookupKey acc q.1 = none) →
      l.foldl (fun acc q => setKey acc q.1 (g q)) acc
        = acc ++ l.map (fun q => (q.1, g q)) := by
  intro l
  induction l with
  | nil => intro acc _ _; simp
  | cons q rest ih =>
    intro acc hnd hacc
    obtain ⟨k, b⟩ := q
    simp only [List.map_cons, List.nodup_cons] at hnd
    have hk : lookupKey acc k = none := hacc (k, b) (List.mem_cons_self _ _)
    simp only [List.foldl_cons]
    rw [setKey_eq_append (g (k, b)) hk]
    rw [ih (acc ++ [(k, g (k, b))]) hnd.2]
    · simp
    · intro q' hq'
      have hne : q'.1 ≠ k := by
        intro hEq
        exact hnd.1 (hEq ▸ (List.mem_map_of_mem Prod.fst hq'))
      exact lookupKey_append_ne _ hne (hacc q' (List.mem_cons_of_mem _ hq'))

/-! ### Behaviour of the composite operations -/

/-- Closed form of `PlugableProgram.unload` when called with `{}` (as
`Agent.program_unload` always does): every plugin's unload is captured under
its own id inside the `plugins` sub-dict, all plugin-unload events precede the
greenlet kill, and the greenlet is killed exactly when it was alive. -/
theorem PlugableProgram_unload_spec (p : ProgInst) :
    PlugableProgram_unload p (PyVal.pyDict [])
      = ({p with green := match p.green with | some false => some true | g => g},
         PyVal.pyDict [("plugins",
           PyVal.pyDict (p.plugins.foldl (fun acc q => setKey acc q.1 q.2.cls.unloadRet) []))],
         p.plugins.map (fun q => Ev.pluginUnloadEv (uidStr p) q.1)
           ++ (match p.green with | some false => [Ev.killGreenEv (uidStr p)] | _ => [])) := by
  obtain ⟨cls, uid, cfg, green, plugs⟩ := p
  rcases green with _ | b
  · simp only [PlugableProgram_unload, List.append_nil]
    rfl
  · cases b
    · simp only [PlugableProgram_unload]
      rfl
    · simp only [PlugableProgram_unload, List.append_nil]
      rfl

/-- Closed form of the `Agent.init` loop. -/
theorem initGo_spec (l : List (String × ProgInst)) :
    initGo l = (l.map (fun q => (q.1, {q.2 with green := some false})),
                (l.map (fun q => (PlugableProgram_init q.2).2)).flatten) := by
  induction l with
  | nil => rfl
  | cons q rest ih =>
    obtain ⟨k, p⟩ := q
    simp only [initGo, ih, List.map_cons, List.flatten_cons]
    rfl

/-- Closed form of the `Agent.shutdown` loop on a registry with distinct keys:
every program is unloaded (in order) and the registry ends up empty. -/
theorem shutdownGo_spec :
    ∀ l : List (String × ProgInst), (l.map Prod.fst).Nodup →
      shutdownGo (l.map Prod.fst) ⟨l⟩
        = (⟨[]⟩,
           (l.map (fun q => (PlugableProgram_unload q.2 (PyVal.pyDict [])).2.2)).flatten,
           none) := by
  intro l
  induction l with
  | nil => intro _; rfl
  | cons q rest ih =>
    intro hnd
    obtain ⟨k, p⟩ := q
    simp only [List.map_cons, List.nodup_cons] at hnd
    have hlk : lookupKey (((k, p) : String × ProgInst) :: rest) k = some p := by
      simp [lookupKey]
    have hrm : removeKey (((k, p) : String × ProgInst) :: rest) k = rest := by
      simp only [removeKey, if_pos rfl]
      exact removeKey_eq_self hnd.1
    simp only [List.map_cons, shutdownGo, Agent_program_unload, hlk, hrm]
    rw [ih hnd.2]
    simp [List.flatten_cons]

/-! ### Concrete scenario fixtures (Scenario B of the spec and variants) -/

/-- A well-behaved user Plugin subclass whose unload returns a recognizable
state value. -/
def p1Cls : PluginCls := ⟨2, true, false, PyVal.pyStr "p1-state"⟩

/-- The plugin "p1" as loaded under program "alpha". -/
def p1Inst : PluginInst := ⟨p1Cls, some "p1", PCfg.pnone⟩

/-- A well-behaved user PlugableProgram subclass. -/
def alphaCls : ProgCls := ⟨1, true, false⟩

/-- A non-None config for "alpha" that declares no plugins. -/
def alphaCfg : ConfigV := ConfigV.cmk none 3

/-- The program "alpha": loaded, initialized (greenlet alive), hosting "p1". -/
def alphaProg : ProgInst := ⟨alphaCls, some "alpha", alphaCfg, some false, [("p1", p1Inst)]⟩

/-- The Agent of Scenario B: one program "alpha" hosting one plugin "p1". -/
def agentB : AgentSt := ⟨[("alpha", alphaProg)]⟩

/-! ### Claim theorems -/

/-- C2: when a Supervisor node is unloaded, every child's unload runs before
the node's own greenlet is killed (first conjunct: the kill event comes after
all plugin-unload events), each child's returned state is captured under its
own id inside the returned mapping's `plugins` entry (second conjunct), and
`Agent.shutdown` unloads every program — each program's plugins before its own
greenlet kill — leaving the Agent's registry empty (third conjunct). -/
theorem C2_unload_order_and_shutdown_empties_registry :
    (∀ p : ProgInst, (PlugableProgram_unload p (PyVal.pyDict [])).2.2
        = p.plugins.map (fun q => Ev.pluginUnloadEv (uidStr p) q.1)
            ++ (match p.green with
                | some false => [Ev.killGreenEv (uidStr p)]
                | _ => []))
  ∧ (∀ p : ProgInst, (p.plugins.map Prod.fst).Nodup →
        dictGet (PlugableProgram_unload p (PyVal.pyDict [])).2.1 "plugins"
          = some (PyVal.pyDict (p.plugins.map (fun q => (q.1, q.2.cls.unloadRet)))))
  ∧ (∀ a : AgentSt, (a.programs.map Prod.fst).Nodup →
        Agent_shutdown a
          = (⟨[]⟩,
             (a.programs.map
               (fun q => (PlugableProgram_unload q.2 (PyVal.pyDict [])).2.2)).flatten,
             none)) := by
  refine ⟨?_, ?_, ?_⟩
  · intro p
    rw [PlugableProgram_unload_spec]
  · intro p hnd
    rw [PlugableProgram_unload_spec]
    simp only [dictGet, lookupKey, if_pos rfl]
    rw [foldl_setKey_eq_map (fun q => q.2.cls.unloadRet) p.plugins [] hnd
      (fun _ _ => rfl)]
    simp
  · intro a hnd
    obtain ⟨l⟩ := a
    exact shutdownGo_spec l hnd

/-- C2 witness: in the tree Agent → "alpha" → "p1", shutdown unloads p1 before
alpha's greenlet is killed, and the registry is empty afterwards. -/
theorem C2_witness :
    (agentB.programs.map Prod.fst).Nodup
  ∧ Agent_shutdown agentB
      = (⟨[]⟩, [Ev.pluginUnloadEv "alpha" "p1", Ev.killGreenEv "alpha"], none) :=
  ⟨by decide, by
    have h := C2_unload_order_and_shutdown_empties_registry.2.2 agentB (by decide)
    exact h.trans rfl⟩

/-- C3: for a Supervisor with already-loaded children, init() runs every
child's init and only then spawns the Supervisor's own Task (the spawn event
is last, after every plugin-init event); Agent.init() initializes every
program the same way and then joins exactly the spawned greenlets of its
registered programs; with zero programs the join set is empty, so the call
returns immediately. -/
theorem C3_init_children_before_spawn :
    (∀ p : ProgInst, PlugableProgram_init p
        = ({p with green := some false},
           p.plugins.map (fun q => Ev.pluginInitEv (uidStr p) q.1)
             ++ [Ev.spawnEv (uidStr p)]))
  ∧ (∀ a : AgentSt, Agent_init a
        = (⟨a.programs.map (fun q => (q.1, {q.2 with green := some false}))⟩,
           (a.programs.map (fun q =>
               q.2.plugins.map (fun r => Ev.pluginInitEv (uidStr q.2) r.1)
                 ++ [Ev.spawnEv (uidStr q.2)])).flatten
             ++ [Ev.joinAllEv (a.programs.map Prod.fst)]))
  ∧ Agent_init ⟨[]⟩ = (⟨[]⟩, [Ev.joinAllEv []]) := by
  refine ⟨fun p => rfl, ?_, rfl⟩
  intro a
  simp only [Agent_init, initGo_spec, List.map_map]
  rfl

/-- Closed form of a fresh, successful `Agent.program_load` with the plugins
argument left at its None default. -/
theorem Agent_program_load_fresh (qm : ModSys PluginCls) (a : AgentSt) (cls : ProgCls)
    (uid : String) (cfg : ConfigV) (st : PyVal)
    (habs : lookupKey a.programs uid = none) (hload : cls.loadFails = false) :
    Agent_program_load qm a cls uid cfg st none
      = (⟨a.programs ++ [(uid, ⟨cls, some uid, cfg, none, []⟩)]⟩,
         [Ev.progLoadEv uid cfg (pyOrEmpty st)],
         .ok ⟨cls, some uid, cfg, none, []⟩) := by
  simp only [Agent_program_load, habs, Option.isSome_none, Bool.false_eq_true, if_false,
    PlugableProgram_load, hload, PlugableProgram_plugin_import_list, uidStr, Option.getD_some]
  rw [setKey_append_self _ _ habs, setKey_append_self _ _ habs]
  simp

/-- Closed form of a fresh, successful `PlugableProgram.plugin_load`. -/
theorem plugin_load_fresh (p : ProgInst) (cls : PluginCls) (uid : String)
    (cfg : PCfg) (st : PyVal)
    (habs : lookupKey p.plugins uid = none) (hload : cls.loadFails = false) :
    PlugableProgram_plugin_load p cls uid cfg st
      = ({p with plugins := p.plugins ++ [(uid, ⟨cls, some uid, cfg⟩)]},
         [Ev.pluginLoadEv (uidStr p) uid cfg (pyOrEmpty st)],
         .ok ⟨cls, some uid, cfg⟩) := by
  simp only [PlugableProgram_plugin_load, habs, Option.isSome_none, Bool.false_eq_true,
    if_false, hload]

/-- C5 (code bug): `Agent.propogate` writes `for program in self.programs:`,
which iterates the dict's KEYS, so with any loaded program the loop calls
`.propogate` on a `str` and raises AttributeError instead of invoking each
child Program's propogate (`Agent.init`, by contrast, iterates
`self.programs.values()`); `PlugableProgram.propogate` has the identical slip.
Evaluated at the failing input (an Agent holding the one program "alpha"):
the call raises; on an empty registry it is a no-op, and the base
`Plugin.propogate` is a no-op as the claim says. -/
theorem C5_propogate_crashes_on_nonempty_registry :
    Agent_propogate agentB "cmd" PyVal.pyNone = some (.attributeError "propogate")
  ∧ Agent_propogate ⟨[]⟩ "cmd" PyVal.pyNone = none
  ∧ PlugableProgram_propogate alphaProg "cmd" PyVal.pyNone
      = some (.attributeError "propogate")
  ∧ Plugin_propogate p1Inst "cmd" PyVal.pyNone = none :=
  ⟨rfl, rfl, rfl, rfl⟩

/-- C7: loading a child under an id already present in the owner's registry
fails with ProgramLoadError ("already loaded", the DuplicateID fault) and
leaves the registry unchanged (first and fourth conjuncts, Agent and
PlugableProgram level); a fresh load under an absent id succeeds and registers
the child (second and fifth conjuncts); and after an id has been unloaded,
loading a new child under the same id succeeds again (third conjunct). -/
theorem C7_duplicate_id_fails_reinsert_succeeds :
    (∀ (qm : ModSys PluginCls) (a : AgentSt) (cls : ProgCls) (uid : String)
        (cfg : ConfigV) (st : PyVal) (pl : Option (List PlugSpec)) (p0 : ProgInst),
        lookupKey a.programs uid = some p0 →
        Agent_program_load qm a cls uid cfg st pl
          = (a, [], .error (.programLoadError ("Program already loaded: " ++ uid))))
  ∧ (∀ (qm : ModSys PluginCls) (a : AgentSt) (cls : ProgCls) (uid : String)
        (cfg : ConfigV) (st : PyVal),
        lookupKey a.programs uid = none → cls.loadFails = false →
        Agent_program_load qm a cls uid cfg st none
          = (⟨a.programs ++ [(uid, ⟨cls, some uid, cfg, none, []⟩)]⟩,
             [Ev.progLoadEv uid cfg (pyOrEmpty st)],
             .ok ⟨cls, some uid, cfg, none, []⟩))
  ∧ (∀ (qm : ModSys PluginCls) (a : AgentSt) (uid : String) (p0 : ProgInst)
        (cls : ProgCls) (cfg : ConfigV) (st : PyVal),
        lookupKey a.programs uid = some p0 → cls.loadFails = false →
        Agent_program_load qm (Agent_program_unload a uid).1 cls uid cfg st none
          = (⟨removeKey a.programs uid ++ [(uid, ⟨cls, some uid, cfg, none, []⟩)]⟩,
             [Ev.progLoadEv uid cfg (pyOrEmpty st)],
             .ok ⟨cls, some uid, cfg, none, []⟩))
  ∧ (∀ (p : ProgInst) (cls : PluginCls) (uid : String) (cfg : PCfg) (st : PyVal)
        (pl0 : PluginInst),
        lookupKey p.plugins uid = some pl0 →
        PlugableProgram_plugin_load p cls uid cfg st
          = (p, [], .error (.programLoadError ("Plugin already loaded: " ++ uid))))
  ∧ (∀ (p : ProgInst) (cls : PluginCls) (uid : String) (cfg : PCfg) (st : PyVal),
        lookupKey p.plugins uid = none → cls.loadFails = false →
        PlugableProgram_plugin_load p cls uid cfg st
          = ({p with plugins := p.plugins ++ [(uid, ⟨cls, some uid, cfg⟩)]},
             [Ev.pluginLoadEv (uidStr p) uid cfg (pyOrEmpty st)],
             .ok ⟨cls, some uid, cfg⟩)) := by
  refine ⟨?_, ?_, ?_, ?_, ?_⟩
  · intro qm a cls uid cfg st pl p0 h
    simp [Agent_program_load, h]
  · intro qm a cls uid cfg st habs hload
    exact Agent_program_load_fresh qm a cls uid cfg st habs hload
  · intro qm a uid p0 cls cfg st hpres hload
    have h1 : (Agent_program_unload a uid).1 = ⟨removeKey a.programs uid⟩ := by
      simp [Agent_program_unload, hpres]
    rw [h1]
    exact Agent_program_load_fresh qm ⟨removeKey a.programs uid⟩ cls uid cfg st
      (lookupKey_removeKey a.programs uid) hload
  · intro p cls uid cfg st pl0 h
    simp [PlugableProgram_plugin_load, h]
  · intro p cls uid cfg st habs hload
    exact plugin_load_fresh p cls uid cfg st habs hload

/-- C7 witness: loading a second "alpha" into the Scenario-B Agent fails with
the already-loaded ProgramLoadError and leaves the registry untouched; after
unloading "alpha", loading a fresh program under the same id succeeds. -/
theorem C7_witness :
    lookupKey agentB.programs "alpha" = some alphaProg
  ∧ Agent_program_load [] agentB alphaCls "alpha" alphaCfg PyVal.pyNone none
      = (agentB, [], .error (.programLoadError ("Program already loaded: " ++ "alpha")))
  ∧ Agent_program_load [] (Agent_program_unload agentB "alpha").1 alphaCls "alpha"
        alphaCfg PyVal.pyNone none
      = (⟨[("alpha", ⟨alphaCls, some "alpha", alphaCfg, none, []⟩)]⟩,
         [Ev.progLoadEv "alpha" alphaCfg (PyVal.pyDict [])],
         .ok ⟨alphaCls, some "alpha", alphaCfg, none, []⟩) :=
  ⟨rfl,
   C7_duplicate_id_fails_reinsert_succeeds.1 [] agentB alphaCls "alpha" alphaCfg
     PyVal.pyNone none alphaProg rfl,
   (C7_duplicate_id_fails_reinsert_succeeds.2.2.1 [] agentB "alpha" alphaProg alphaCls
     alphaCfg PyVal.pyNone rfl rfl).trans rfl⟩

/-- C8: unloading or reloading an id absent from the registry fails with
ProgramLoadError (the NotFound fault) and leaves the Agent unchanged (first
two conjuncts); unloading a present id removes it and returns the state of
its own unload, after which a second unload of the same id fails with the
same NotFound error (third conjunct). -/
theorem C8_missing_id_notfound :
    (∀ (a : AgentSt) (uid : String), lookupKey a.programs uid = none →
        Agent_program_unload a uid
          = (a, [], .error (.programLoadError ("Cannot remove non-loaded program: " ++ uid))))
  ∧ (∀ (qm : ModSys PluginCls) (a : AgentSt) (uid : String) (cfgArg : ConfigV),
        lookupKey a.programs uid = none →
        Agent_program_reload qm a uid cfgArg
          = (a, [], .error (.programLoadError ("Cannot reload non-loaded program: " ++ uid))))
  ∧ (∀ (a : AgentSt) (uid : String) (p : ProgInst), lookupKey a.programs uid = some p →
        Agent_program_unload a uid
          = (⟨removeKey a.programs uid⟩,
             (PlugableProgram_unload p (PyVal.pyDict [])).2.2,
             .ok (PlugableProgram_unload p (PyVal.pyDict [])).2.1)
        ∧ lookupKey (removeKey a.programs uid) uid = none
        ∧ Agent_program_unload ⟨removeKey a.programs uid⟩ uid
            = (⟨removeKey a.programs uid⟩, [],
               .error (.programLoadError ("Cannot remove non-loaded program: " ++ uid)))) := by
  refine ⟨?_, ?_, ?_⟩
  · intro a uid h
    simp [Agent_program_unload, h]
  · intro qm a uid cfgArg h
    simp [Agent_program_reload, h]
  · intro a uid p h
    refine ⟨by simp [Agent_program_unload, h], lookupKey_removeKey a.programs uid, ?_⟩
    simp [Agent_program_unload, lookupKey_removeKey a.programs uid]

/-- C8 witness: unloading the missing id "ghost" fails and changes nothing;
unloading "alpha" succeeds once and fails the second time. -/
theorem C8_witness :
    lookupKey agentB.programs "ghost" = none
  ∧ Agent_program_unload agentB "ghost"
      = (agentB, [], .error (.programLoadError ("Cannot remove non-loaded program: " ++ "ghost")))
  ∧ Agent_program_reload [] agentB "ghost" ConfigV.cnone
      = (agentB, [], .error (.programLoadError ("Cannot reload non-loaded program: " ++ "ghost")))
  ∧ Agent_program_unload ⟨removeKey agentB.programs "alpha"⟩ "alpha"
      = (⟨removeKey agentB.programs "alpha"⟩, [],
         .error (.programLoadError ("Cannot remove non-loaded program: " ++ "alpha"))) :=
  ⟨rfl,
   C8_missing_id_notfound.1 agentB "ghost" rfl,
   C8_missing_id_notfound.2.1 [] agentB "ghost" ConfigV.cnone rfl,
   (C8_missing_id_notfound.2.2 agentB "alpha" alphaProg rfl).2.2⟩

/-- A Plugin subclass whose load override raises. -/
def qBadCls : PluginCls := ⟨5, true, true, PyVal.pyDict []⟩

/-- A Program subclass whose load override raises. -/
def badProgCls : ProgCls := ⟨6, true, true⟩

/-- C9 counterexample: loading plugin "q" (whose load raises) under "alpha"
propagates the exception, yet "q" IS present in alpha's registry afterwards —
the source inserts the child into the registry dict BEFORE calling its load,
so the claim that the registry only ever holds children with completed loads
is false. -/
theorem C9_counterexample_failed_load_still_registered :
    (PlugableProgram_plugin_load alphaProg qBadCls "q" PCfg.pnone PyVal.pyNone).2.2
        = .error (.userError 5)
  ∧ lookupKey (PlugableProgram_plugin_load alphaProg qBadCls "q" PCfg.pnone
        PyVal.pyNone).1.plugins "q"
        = some ⟨qBadCls, some "q", PCfg.pnone⟩ :=
  ⟨rfl, rfl⟩

/-- C9 (amended): load_child inserts the child into the Registry BEFORE
invoking the child's load, so when the load raises, the exception propagates
while the child remains registered (with its config still unset), at both the
PlugableProgram and the Agent level. -/
theorem C9_insert_precedes_load :
    (∀ (p : ProgInst) (cls : PluginCls) (uid : String) (cfg : PCfg) (st : PyVal),
        lookupKey p.plugins uid = none → cls.loadFails = true →
        PlugableProgram_plugin_load p cls uid cfg st
          = ({p with plugins := p.plugins ++ [(uid, ⟨cls, some uid, PCfg.pnone⟩)]},
             [Ev.pluginLoadEv (uidStr p) uid cfg (pyOrEmpty st)],
             .error (.userError cls.clsId))
        ∧ lookupKey (p.plugins ++ [(uid, (⟨cls, some uid, PCfg.pnone⟩ : PluginInst))]) uid
            = some ⟨cls, some uid, PCfg.pnone⟩)
  ∧ (∀ (qm : ModSys PluginCls) (a : AgentSt) (cls : ProgCls) (uid : String)
        (cfg : ConfigV) (st : PyVal) (pl : Option (List PlugSpec)),
        lookupKey a.programs uid = none → cls.loadFails = true →
        Agent_program_load qm a cls uid cfg st pl
          = (⟨a.programs ++ [(uid, ⟨cls, some uid, ConfigV.cnone, none, []⟩)]⟩,
             [Ev.progLoadEv uid cfg (pyOrEmpty st)],
             .error (.userError cls.clsId))
        ∧ lookupKey (a.programs ++ [(uid, (⟨cls, some uid, ConfigV.cnone, none, []⟩ : ProgInst))]) uid
            = some ⟨cls, some uid, ConfigV.cnone, none, []⟩) := by
  constructor
  · intro p cls uid cfg st habs hload
    refine ⟨?_, lookupKey_append_self _ habs⟩
    simp [PlugableProgram_plugin_load, habs, hload]
  · intro qm a cls uid cfg st pl habs hload
    refine ⟨?_, lookupKey_append_self _ habs⟩
    simp only [Agent_program_load, habs, Option.isSome_none, Bool.false_eq_true, if_false,
      PlugableProgram_load, hload, if_true, uidStr, Option.getD_some]
    rw [setKey_append_self _ _ habs]

/-- C9 witness (amended claim): loading a program whose load raises into an
empty Agent leaves the program registered while the exception propagates. -/
theorem C9_witness :
    lookupKey (⟨[]⟩ : AgentSt).programs "b" = none
  ∧ Agent_program_load [] ⟨[]⟩ badProgCls "b" ConfigV.cnone PyVal.pyNone none
      = (⟨[("b", ⟨badProgCls, some "b", ConfigV.cnone, none, []⟩)]⟩,
         [Ev.progLoadEv "b" ConfigV.cnone (PyVal.pyDict [])],
         .error (.userError 6))
  ∧ lookupKey [("b", (⟨badProgCls, some "b", ConfigV.cnone, none, []⟩ : ProgInst))] "b"
      = some ⟨badProgCls, some "b", ConfigV.cnone, none, []⟩ :=
  ⟨rfl,
   ((C9_insert_precedes_load.2 [] ⟨[]⟩ badProgCls "b" ConfigV.cnone PyVal.pyNone
      none rfl rfl).1).trans rfl,
   (C9_insert_precedes_load.2 [] ⟨[]⟩ badProgCls "b" ConfigV.cnone PyVal.pyNone
      none rfl rfl).2⟩

/-- A well-behaved Plugin subclass resolvable from module "modg". -/
def qGoodCls : PluginCls := ⟨7, true, false, PyVal.pyDict []⟩

/-- Plugin-module universe: "modg" resolves to the good class, "modb" to the
class whose load raises; anything else is unimportable. -/
def qmFix : ModSys PluginCls :=
  [("modg", [("Plugin", AttrRes.cls qGoodCls)]),
   ("modb", [("Plugin", AttrRes.cls qBadCls)])]

/-- Plugin import specs used in the C4 scenario. -/
def specG : PlugSpec := ⟨"modg", none, "Plugin", PCfg.pnone⟩

/-- Spec whose import resolves but whose load raises. -/
def specB : PlugSpec := ⟨"modb", none, "Plugin", PCfg.pnone⟩

/-- Spec whose module does not exist (never reached in the scenario). -/
def specG2 : PlugSpec := ⟨"modg2", none, "Plugin", PCfg.pnone⟩

/-- A loaded-but-plugin-free PlugableProgram instance. -/
def progEmpty : ProgInst := ⟨alphaCls, some "alpha", ConfigV.cnone, none, []⟩

/-- A config that declares one plugin. -/
def cfgDecl : ConfigV := ConfigV.cmk (some [specG]) 9

/-- C4 (code bug): `PlugableProgram.load` only stores the config — despite its
own docstring ("loads any plugins defined in the config") it resolves and
loads NO plugin declared there (first two conjuncts: after loading a config
declaring `specG`, the plugin registry is still empty).  Plugins are loaded
only from the separate `plugins` argument via
`Agent.program_load`/`plugin_import_list`; for that path, the abort semantics
the claim describes does hold (third conjunct, evaluated on the concrete list
[specG, specB, specG2]): the first failing load aborts the remaining declared
ones (the unimportable specG2 is never touched), the error propagates, and
the child loaded before the failure stays loaded. -/
theorem C4_load_ignores_declared_plugins :
    PlugableProgram_load progEmpty cfgDecl (PyVal.pyDict [])
        = ({progEmpty with config := cfgDecl},
           [Ev.progLoadEv "alpha" cfgDecl (PyVal.pyDict [])], none)
  ∧ ({progEmpty with config := cfgDecl} : ProgInst).plugins = []
  ∧ PlugableProgram_plugin_import_list qmFix progEmpty (some [specG, specB, specG2])
      = ({progEmpty with plugins :=
            [("modg", ⟨qGoodCls, some "modg", PCfg.pnone⟩),
             ("modb", ⟨qBadCls, some "modb", PCfg.pnone⟩)]},
         [Ev.pluginLoadEv "alpha" "modg" PCfg.pnone (PyVal.pyDict []),
          Ev.pluginLoadEv "alpha" "modb" PCfg.pnone (PyVal.pyDict [])],
         some (.userError 5)) :=
  ⟨rfl, rfl, rfl⟩

/-- A class that is NOT a subtype of dogma.program.Program (nor the base
itself); the import path accepts it anyway. -/
def foreignCls : ProgCls := ⟨8, false, false⟩

/-- Program-module universe resolving "m"."Program" to the non-subtype class. -/
def pmForeign : ModSys ProgCls := [("m", [("Program", AttrRes.cls foreignCls)])]

/-- C6 counterexample: the resolved symbol is a class that is not a proper
subtype of the expected base Program, yet `Agent.program_import` raises
nothing — it instantiates, loads and registers it.  The source checks only
falsy / not-a-class / is-the-base-itself and performs no subclass check, so
the claim's "fails with NotAnExpectedType whenever the resolved symbol is not
a proper concrete subtype" is false. -/
theorem C6_counterexample_non_subtype_accepted :
    foreignCls.properSubclassOfProgram = false
  ∧ Agent_program_import pmForeign [] ⟨[]⟩ "m" none "Program" ConfigV.cnone none
      = (⟨[("m", ⟨foreignCls, some "m", ConfigV.cnone, none, []⟩)]⟩,
         [Ev.progLoadEv "m" ConfigV.cnone (PyVal.pyDict [])],
         .ok ⟨foreignCls, some "m", ConfigV.cnone, none, []⟩) :=
  ⟨rfl, rfl⟩

/-- C6 (amended): import_child raises the bare Python ImportError when the
module cannot be imported and the bare AttributeError when the named symbol is
absent (no dedicated ResolutionError); it raises ProgramLoadError when the
resolved attribute is falsy, is not a class, or is exactly the abstract base
(Program resp. Plugin); it performs NO subtype check — any class other than
the abstract base, subtype or not, is instantiated, loaded and registered.
Conjuncts 1-6 cover `Agent.program_import`, conjuncts 7-12 the mirror-image
`PlugableProgram.plugin_import`. -/
theorem C6_import_error_classification :
    (∀ (pm : ModSys ProgCls) (qm : ModSys PluginCls) (a : AgentSt) (module : String)
        (uidOpt : Option String) (classname : String) (cfg : ConfigV)
        (pl : Option (List PlugSpec)),
        lookupKey pm module = none →
        Agent_program_import pm qm a module uidOpt classname cfg pl
          = (a, [], .error (.importError module)))
  ∧ (∀ (pm : ModSys ProgCls) (qm : ModSys PluginCls) (a : AgentSt) (module : String)
        (uidOpt : Option String) (classname : String) (cfg : ConfigV)
        (pl : Option (List PlugSpec)) m,
        lookupKey pm module = some m → lookupKey m classname = none →
        Agent_program_import pm qm a module uidOpt classname cfg pl
          = (a, [], .error (.attributeError classname)))
  ∧ (∀ (pm : ModSys ProgCls) (qm : ModSys PluginCls) (a : AgentSt) (module : String)
        (uidOpt : Option String) (classname : String) (cfg : ConfigV)
        (pl : Option (List PlugSpec)) m,
        lookupKey pm module = some m → lookupKey m classname = some AttrRes.falsy →
        Agent_program_import pm qm a module uidOpt classname cfg pl
          = (a, [], .error (.programLoadError
              ("Class " ++ classname ++ " for module " ++ module ++ " not defined"))))
  ∧ (∀ (pm : ModSys ProgCls) (qm : ModSys PluginCls) (a : AgentSt) (module : String)
        (uidOpt : Option String) (classname : String) (cfg : ConfigV)
        (pl : Option (List PlugSpec)) m,
        lookupKey pm module = some m → lookupKey m classname = some AttrRes.notAClass →
        Agent_program_import pm qm a module uidOpt classname cfg pl
          = (a, [], .error (.programLoadError
              ("Attribute " ++ classname ++ " for module " ++ module ++ " is not a class"))))
  ∧ (∀ (pm : ModSys ProgCls) (qm : ModSys PluginCls) (a : AgentSt) (module : String)
        (uidOpt : Option String) (classname : String) (cfg : ConfigV)
        (pl : Option (List PlugSpec)) m c,
        lookupKey pm module = some m → lookupKey m classname = some (AttrRes.cls c) →
        isProgramBaseCls c = true →
        Agent_program_import pm qm a module uidOpt classname cfg pl
          = (a, [], .error (.programLoadError
              ("Class " ++ classname ++ " for module " ++ module
                ++ " can not be dogma.program.Program"))))
  ∧ (∀ (pm : ModSys ProgCls) (qm : ModSys PluginCls) (a : AgentSt) (module : String)
        (classname : String) (cfg : ConfigV) m c,
        lookupKey pm module = some m → lookupKey m classname = some (AttrRes.cls c) →
        isProgramBaseCls c = false → lookupKey a.programs module = none →
        c.loadFails = false →
        Agent_program_import pm qm a module none classname cfg none
          = (⟨a.programs ++ [(module, ⟨c, some module, cfg, none, []⟩)]⟩,
             [Ev.progLoadEv module cfg (PyVal.pyDict [])],
             .ok ⟨c, some module, cfg, none, []⟩))
  ∧ (∀ (qm : ModSys PluginCls) (p : ProgInst) (module : String)
        (uidOpt : Option String) (classname : String) (cfg : PCfg),
        lookupKey qm module = none →
        PlugableProgram_plugin_import qm p module uidOpt classname cfg
          = (p, [], .error (.importError module)))
  ∧ (∀ (qm : ModSys PluginCls) (p : ProgInst) (module : String)
        (uidOpt : Option String) (classname : String) (cfg : PCfg) m,
        lookupKey qm module = some m → lookupKey m classname = none →
        PlugableProgram_plugin_import qm p module uidOpt classname cfg
          = (p, [], .error (.attributeError classname)))
  ∧ (∀ (qm : ModSys PluginCls) (p : ProgInst) (module : String)
        (uidOpt : Option String) (classname : String) (cfg : PCfg) m,
        lookupKey qm module = some m → lookupKey m classname = some AttrRes.falsy →
        PlugableProgram_plugin_import qm p module uidOpt classname cfg
          = (p, [], .error (.programLoadError
              ("Class " ++ classname ++ " for module " ++ module ++ " not defined"))))
  ∧ (∀ (qm : ModSys PluginCls) (p : ProgInst) (module : String)
        (uidOpt : Option String) (classname : String) (cfg : PCfg) m,
        lookupKey qm module = some m → lookupKey m classname = some AttrRes.notAClass →
        PlugableProgram_plugin_import qm p module uidOpt classname cfg
          = (p, [], .error (.programLoadError
              ("Attribute " ++ classname ++ " for module " ++ module ++ " is not a class"))))
  ∧ (∀ (qm : ModSys PluginCls) (p : ProgInst) (module : String)
        (uidOpt : Option String) (classname : String) (cfg : PCfg) m c,
        lookupKey qm module = some m → lookupKey m classname = some (AttrRes.cls c) →
        isPluginBaseCls c = true →
        PlugableProgram_plugin_import qm p module uidOpt classname cfg
          = (p, [], .error (.programLoadError
              ("Class " ++ classname ++ " for module " ++ module
                ++ " can not be dogma.program.Plugin"))))
  ∧ (∀ (qm : ModSys PluginCls) (p : ProgInst) (module : String)
        (classname : String) (cfg : PCfg) m c,
        lookupKey qm module = some m → lookupKey m classname = some (AttrRes.cls c) →
        isPluginBaseCls c = false → lookupKey p.plugins module = none →
        c.loadFails = false →
        PlugableProgram_plugin_import qm p module none classname cfg
          = ({p with plugins := p.plugins ++ [(module, ⟨c, some module, cfg⟩)]},
             [Ev.pluginLoadEv (uidStr p) module cfg (PyVal.pyDict [])],
             .ok ⟨c, some module, cfg⟩)) := by
  refine ⟨?_, ?_, ?_, ?_, ?_, ?_, ?_, ?_, ?_, ?_, ?_, ?_⟩
  · intro pm qm a module uidOpt classname cfg pl h1
    simp [Agent_program_import, h1]
  · intro pm qm a module uidOpt classname cfg pl m h1 h2
    simp [Agent_program_import, h1, h2]
  · intro pm qm a module uidOpt classname cfg pl m h1 h2
    simp [Agent_program_import, h1, h2]
  · intro pm qm a module uidOpt classname cfg pl m h1 h2
    simp [Agent_program_import, h1, h2]
  · intro pm qm a module uidOpt classname cfg pl m c h1 h2 h3
    simp [Agent_program_import, h1, h2, h3]
  · intro pm qm a module classname cfg m c h1 h2 h3 habs hload
    have h4 := Agent_program_load_fresh qm a c module cfg PyVal.pyNone habs hload
    simp only [Agent_program_import, h1, h2, h3, Bool.false_eq_true, if_false]
    exact h4
  · intro qm p module uidOpt classname cfg h1
    simp [PlugableProgram_plugin_import, h1]
  · intro qm p module uidOpt classname cfg m h1 h2
    simp [PlugableProgram_plugin_import, h1, h2]
  · intro qm p module uidOpt classname cfg m h1 h2
    simp [PlugableProgram_plugin_import, h1, h2]
  · intro qm p module uidOpt classname cfg m h1 h2
    simp [PlugableProgram_plugin_import, h1, h2]
  · intro qm p module uidOpt classname cfg m c h1 h2 h3
    simp [PlugableProgram_plugin_import, h1, h2, h3]
  · intro qm p module classname cfg m c h1 h2 h3 habs hload
    have h4 := plugin_load_fresh p c module cfg PyVal.pyNone habs hload
    simp only [PlugableProgram_plugin_import, h1, h2, h3, Bool.false_eq_true, if_false]
    exact h4

/-- C6 witness: a missing module raises ImportError; a missing symbol raises
AttributeError; the abstract base is rejected with ProgramLoadError. -/
theorem C6_witness :
    lookupKey pmForeign "nope" = none
  ∧ Agent_program_import pmForeign [] ⟨[]⟩ "nope" none "Program" ConfigV.cnone none
      = (⟨[]⟩, [], .error (.importError "nope"))
  ∧ PlugableProgram_plugin_import qmFix progEmpty "modg" none "NoSuchClass" PCfg.pnone
      = (progEmpty, [], .error (.attributeError "NoSuchClass")) :=
  ⟨rfl,
   C6_import_error_classification.1 pmForeign [] ⟨[]⟩ "nope" none "Program"
     ConfigV.cnone none rfl,
   C6_import_error_classification.2.2.2.2.2.2.2.1 qmFix progEmpty "modg" none
     "NoSuchClass" PCfg.pnone [("Plugin", AttrRes.cls qGoodCls)] rfl rfl⟩

/-- C10: for a program whose stored config is still None, program_reload with
no override raises AttributeError (from `config.get("plugins")` on None) — not
a ProgramLoadError — and only after the unload already ran and removed the id,
so the id is no longer registered and the state its unload returned is
discarded with the exception. -/
theorem C10_none_config_reload_raises_after_unload :
    ∀ (qm : ModSys PluginCls) (a : AgentSt) (uid : String) (p : ProgInst),
      lookupKey a.programs uid = some p → p.config = ConfigV.cnone →
      Agent_program_reload qm a uid ConfigV.cnone
        = (⟨removeKey a.programs uid⟩,
           (PlugableProgram_unload p (PyVal.pyDict [])).2.2
             ++ [Ev.reloadModuleEv p.cls.clsId],
           .error (.attributeError "get"))
      ∧ lookupKey (removeKey a.programs uid) uid = none := by
  intro qm a uid p h hcfg
  refine ⟨?_, lookupKey_removeKey a.programs uid⟩
  simp [Agent_program_reload, h, hcfg, Agent_program_unload]

/-- An Agent holding a program "n" that was loaded with config None. -/
def aNone : AgentSt := ⟨[("n", ⟨alphaCls, some "n", ConfigV.cnone, some false, []⟩)]⟩

/-- C10 witness: reloading "n" (config None) raises AttributeError after the
unload events, and "n" is gone from the registry. -/
theorem C10_witness :
    lookupKey aNone.programs "n" = some ⟨alphaCls, some "n", ConfigV.cnone, some false, []⟩
  ∧ Agent_program_reload [] aNone "n" ConfigV.cnone
      = (⟨[]⟩, [Ev.killGreenEv "n", Ev.reloadModuleEv 1], .error (.attributeError "get"))
  ∧ lookupKey (removeKey aNone.programs "n") "n" = none :=
  ⟨rfl,
   ((C10_none_config_reload_raises_after_unload [] aNone "n"
       ⟨alphaCls, some "n", ConfigV.cnone, some false, []⟩ rfl rfl).1).trans rfl,
   (C10_none_config_reload_raises_after_unload [] aNone "n"
       ⟨alphaCls, some "n", ConfigV.cnone, some false, []⟩ rfl rfl).2⟩

/-- The non-registry fields of a program instance: class, id, config, greenlet.
Plugin imports mutate only the plugin registry, never these. -/
def progCore (p : ProgInst) : ProgCls × Option String × ConfigV × Option Bool :=
  (p.cls, p.unique_id, p.config, p.green)

theorem plugin_load_preserves_core (p : ProgInst) (cls : PluginCls) (uid : String)
    (cfg : PCfg) (st : PyVal) :
    progCore (PlugableProgram_plugin_load p cls uid cfg st).1 = progCore p := by
  cases h1 : lookupKey p.plugins uid with
  | some pl0 => simp [PlugableProgram_plugin_load, h1]
  | none =>
    cases h2 : cls.loadFails with
    | true => simp [PlugableProgram_plugin_load, h1, h2, progCore]
    | false => simp [PlugableProgram_plugin_load, h1, h2, progCore]

theorem plugin_import_preserves_core (qm : ModSys PluginCls) (p : ProgInst)
    (module : String) (uidOpt : Option String) (classname : String) (cfg : PCfg) :
    progCore (PlugableProgram_plugin_import qm p module uidOpt classname cfg).1
      = progCore p := by
  cases h1 : lookupKey qm module with
  | none => simp [PlugableProgram_plugin_import, h1]
  | some m =>
    cases h2 : lookupKey m classname with
    | none => simp [PlugableProgram_plugin_import, h1, h2]
    | some attr =>
      cases attr with
      | falsy => simp [PlugableProgram_plugin_import, h1, h2]
      | notAClass => simp [PlugableProgram_plugin_import, h1, h2]
      | cls c =>
        cases h3 : isPluginBaseCls c with
        | true => simp [PlugableProgram_plugin_import, h1, h2, h3]
        | false =>
          simp only [PlugableProgram_plugin_import, h1, h2, h3, Bool.false_eq_true, if_false]
          exact plugin_load_preserves_core p c _ cfg PyVal.pyNone

theorem importListGo_preserves_core (qm : ModSys PluginCls) :
    ∀ (l : List PlugSpec) (p : ProgInst),
      progCore (importListGo qm p l).1 = progCore p := by
  intro l
  induction l with
  | nil => intro p; rfl
  | cons s rest ih =>
    intro p
    have hstep := plugin_import_preserves_core qm p s.module s.unique_id s.classname s.config
    rcases h : PlugableProgram_plugin_import qm p s.module s.unique_id s.classname s.config
      with ⟨p', evs, r⟩
    rw [h] at hstep
    simp only [importListGo, h]
    cases r with
    | ok v => exact (ih p').trans hstep
    | error e => exact hstep

theorem plugin_import_list_preserves_core (qm : ModSys PluginCls)
    (specs : Option (List PlugSpec)) (p : ProgInst) :
    progCore (PlugableProgram_plugin_import_list qm p specs).1 = progCore p := by
  cases specs with
  | none => rfl
  | some l => exact importListGo_preserves_core qm l p

/-- Closed form of a fresh, successful `Agent.program_load` with an arbitrary
plugins argument, given the outcome of the plugin import loop on the freshly
loaded instance. -/
theorem Agent_program_load_fresh_general (qm : ModSys PluginCls) (a : AgentSt)
    (cls : ProgCls) (uid : String) (cfg : ConfigV) (st : PyVal)
    (pl : Option (List PlugSpec)) (inst2 : ProgInst) (evs2 : List Ev)
    (habs : lookupKey a.programs uid = none) (hload : cls.loadFails = false)
    (hil : PlugableProgram_plugin_import_list qm ⟨cls, some uid, cfg, none, []⟩ pl
            = (inst2, evs2, none)) :
    Agent_program_load qm a cls uid cfg st pl
      = (⟨a.programs ++ [(uid, inst2)]⟩,
         Ev.progLoadEv uid cfg (pyOrEmpty st) :: evs2,
         .ok inst2) := by
  simp only [Agent_program_load, habs, Option.isSome_none, Bool.false_eq_true, if_false,
    PlugableProgram_load, hload, uidStr, Option.getD_some]
  rw [setKey_append_self _ _ habs]
  rw [hil]
  simp [setKey_append_self _ _ habs]

/-- The state returned by `PlugableProgram.unload` always contains a
"plugins" entry, hence is truthy: `state or {}` leaves it unchanged when it is
fed into the next load during a reload. -/
theorem pyOrEmpty_unload_state (p : ProgInst) :
    pyOrEmpty (PlugableProgram_unload p (PyVal.pyDict [])).2.1
      = (PlugableProgram_unload p (PyVal.pyDict [])).2.1 := by
  rw [PlugableProgram_unload_spec]
  simp [pyOrEmpty, pyFalsy]

/-- C1 counterexample: the program "n" is registered (with stored config
None); program_reload with no config override raises AttributeError, no new
instance is loaded or initialized, and the id is no longer registered — so
the claim, universally quantified over every registered program id, fails. -/
theorem C1_counterexample_none_config :
    lookupKey aNone.programs "n" =
      some ⟨alphaCls, some "n", ConfigV.cnone, some false, []⟩
  ∧ (Agent_program_reload [] aNone "n" ConfigV.cnone).2.2
      = .error (.attributeError "get")
  ∧ lookupKey (Agent_program_reload [] aNone "n" ConfigV.cnone).1.programs "n" = none :=
  ⟨rfl, rfl, rfl⟩

/-- C1 (amended): provided the stored config is not None (a None config makes
`Agent.program_reload` raise AttributeError out of `config.get("plugins")`,
see C10) and the fresh load and plugin imports succeed, reload reuses the
instance's previously stored config, feeds the state returned by that
instance's own unload into the load of a freshly constructed instance of the
re-imported class (the module is re-loaded; the class object
`program.__class__` is reused), preserves the same id, and calls init() on
the new instance.  First part: `Agent.program_reload`; second part:
`PlugableProgram.plugin_reload`, which needs no non-None proviso. -/
theorem C1_reload_reuses_config_and_state :
    (∀ (qm : ModSys PluginCls) (a : AgentSt) (uid : String) (p : ProgInst)
        (pl : Option (List PlugSpec)) (tg : Nat) (inst2 : ProgInst) (evs2 : List Ev),
        lookupKey a.programs uid = some p →
        p.config = ConfigV.cmk pl tg →
        p.cls.loadFails = false →
        PlugableProgram_plugin_import_list qm
            ⟨p.cls, some uid, ConfigV.cmk pl tg, none, []⟩ pl = (inst2, evs2, none) →
        Agent_program_reload qm a uid ConfigV.cnone
          = (⟨removeKey a.programs uid ++ [(uid, (PlugableProgram_init inst2).1)]⟩,
             (PlugableProgram_unload p (PyVal.pyDict [])).2.2
               ++ Ev.reloadModuleEv p.cls.clsId
                  :: Ev.progLoadEv uid (ConfigV.cmk pl tg)
                       ((PlugableProgram_unload p (PyVal.pyDict [])).2.1)
                  :: (evs2 ++ (PlugableProgram_init inst2).2),
             .ok (PlugableProgram_init inst2).1)
        ∧ inst2.cls = p.cls
        ∧ inst2.unique_id = some uid
        ∧ inst2.config = ConfigV.cmk pl tg
        ∧ lookupKey (removeKey a.programs uid
              ++ [(uid, (PlugableProgram_init inst2).1)]) uid
            = some (PlugableProgram_init inst2).1
        ∧ ((PlugableProgram_init inst2).1).green = some false)
  ∧ (∀ (p : ProgInst) (uid : String) (pl : PluginInst),
        lookupKey p.plugins uid = some pl → pl.cls.loadFails = false →
        PlugableProgram_plugin_reload p uid PCfg.pnone
          = ({p with plugins := removeKey p.plugins uid
                ++ [(uid, ⟨pl.cls, some uid, pl.config⟩)]},
             [Ev.pluginUnloadEv (uidStr p) uid,
              Ev.reloadModuleEv pl.cls.clsId,
              Ev.pluginLoadEv (uidStr p) uid pl.config (pyOrEmpty pl.cls.unloadRet),
              Ev.pluginInitEv (uidStr p) uid],
             .ok ⟨pl.cls, some uid, pl.config⟩)
        ∧ lookupKey (removeKey p.plugins uid
              ++ [(uid, (⟨pl.cls, some uid, pl.config⟩ : PluginInst))]) uid
            = some ⟨pl.cls, some uid, pl.config⟩) := by
  constructor
  · intro qm a uid p pl tg inst2 evs2 hpres hcfg hload hil
    have habs : lookupKey (removeKey a.programs uid) uid = none :=
      lookupKey_removeKey _ _
    have hA1 : Agent_program_unload a uid
        = (⟨removeKey a.programs uid⟩,
           (PlugableProgram_unload p (PyVal.pyDict [])).2.2,
           .ok (PlugableProgram_unload p (PyVal.pyDict [])).2.1) := by
      simp [Agent_program_unload, hpres]
    have hload2 := Agent_program_load_fresh_general qm ⟨removeKey a.programs uid⟩ p.cls
      uid (ConfigV.cmk pl tg) ((PlugableProgram_unload p (PyVal.pyDict [])).2.1)
      pl inst2 evs2 habs hload hil
    have hcore : progCore inst2 = (p.cls, some uid, ConfigV.cmk pl tg, none) := by
      have h := plugin_import_list_preserves_core qm pl
        ⟨p.cls, some uid, ConfigV.cmk pl tg, none, []⟩
      rw [hil] at h
      exact h
    refine ⟨?_, congrArg (fun t => t.1) hcore, congrArg (fun t => t.2.1) hcore,
      congrArg (fun t => t.2.2.1) hcore, lookupKey_append_self _ habs, rfl⟩
    rw [pyOrEmpty_unload_state] at hload2
    simp only [Agent_program_reload, hpres, hA1, hcfg, hload2, pyOrEmpty_unload_state,
      setKey_append_self _ _ habs]
    simp
  · intro p uid pl hpres hload
    have habs : lookupKey (removeKey p.plugins uid) uid = none :=
      lookupKey_removeKey _ _
    refine ⟨?_, lookupKey_append_self _ habs⟩
    have hU : PlugableProgram_plugin_unload p uid
        = ({p with plugins := removeKey p.plugins uid},
           [Ev.pluginUnloadEv (uidStr p) uid], .ok pl.cls.unloadRet) := by
      simp [PlugableProgram_plugin_unload, hpres]
    have hL := plugin_load_fresh ({p with plugins := removeKey p.plugins uid}) pl.cls
      uid pl.config pl.cls.unloadRet habs hload
    simp only [PlugableProgram_plugin_reload, hpres, hU, hL]
    simp [uidStr]

/-- C1 witness (Scenario C): reloading "alpha" with no config override reuses
alpha's stored config `alphaCfg`, feeds the state returned by alpha's own
unload — including p1's "p1-state" under "p1" — into the fresh load, then
initializes (spawns) the new instance under the same id. -/
theorem C1_witness :
    lookupKey agentB.programs "alpha" = some alphaProg
  ∧ alphaProg.config = ConfigV.cmk none 3
  ∧ Agent_program_reload [] agentB "alpha" ConfigV.cnone
      = (⟨[("alpha", ⟨alphaCls, some "alpha", alphaCfg, some false, []⟩)]⟩,
         [Ev.pluginUnloadEv "alpha" "p1", Ev.killGreenEv "alpha",
          Ev.reloadModuleEv 1,
          Ev.progLoadEv "alpha" alphaCfg
            (PyVal.pyDict [("plugins", PyVal.pyDict [("p1", PyVal.pyStr "p1-state")])]),
          Ev.spawnEv "alpha"],
         .ok ⟨alphaCls, some "alpha", alphaCfg, some false, []⟩) :=
  ⟨rfl, rfl,
   ((C1_reload_reuses_config_and_state.1 [] agentB "alpha" alphaProg none 3
       ⟨alphaCls, some "alpha", alphaCfg, none, []⟩ [] rfl rfl rfl rfl).1).trans rfl⟩

end Dogma
